import Mathlib

/-!
# Verification of the IBGRoboot assertion-evaluation engine

Shallow embedding of `src/lib/assertion_response.js`: the runner
`runAssertions`, the classifier `classifyAssertion`, the array-level
evaluator `validateArrayLevel`, the item fan-out `validateOnArrayItems`
and the object-level evaluator `validateObjectLevel` with its twenty-one
rule kinds, including the "Custom" bridge to an external validator module.

JavaScript values are modelled by the inductive `JSValue` (numbers as
rationals; a promise is `JSValue.promise`).  JavaScript exceptions are
modelled by `Except String`; the exact text of an implicitly thrown
`TypeError` is modelled schematically (for example property access on
`null` throws `Cannot read properties of null (reading 'f')`).
Strict equality `===` on objects, arrays and promises is reference
equality in JavaScript; since every value flowing into the engine is a
fresh parse or a fresh literal, two composite operands are never the
same reference and `jsStrictEq` returns `false` for them.
Regular-expression compilation and testing, date parsing, and dynamic
module import are impure host services; they enter the model as the
explicit environment `JsOps`, so every theorem quantifies over them.
-/

namespace IBGRoboot

/-- A JavaScript (JSON-like) runtime value.  `num` carries a rational:
the engine never relies on IEEE rounding, only on comparisons, integer
tests and equality of literals.  `promise v` is a pending promise that
would resolve to `v` (used by the Custom bridge, where the source reads
fields of the return value without awaiting it). -/
inductive JSValue where
  | undefined
  | null
  | bool (b : Bool)
  | num (q : ℚ)
  | str (s : String)
  | arr (elems : List JSValue)
  | obj (fields : List (String × JSValue))
  | promise (v : JSValue)

/-- JavaScript `typeof`. -/
def typeofJS : JSValue → String
  | .undefined => "undefined"
  | .null => "object"
  | .bool _ => "boolean"
  | .num _ => "number"
  | .str _ => "string"
  | .arr _ => "object"
  | .obj _ => "object"
  | .promise _ => "object"

/-- JavaScript truthiness. -/
def truthy : JSValue → Bool
  | .undefined => false
  | .null => false
  | .bool b => b
  | .num q => !(q == 0)
  | .str s => !(s == "")
  | .arr _ => true
  | .obj _ => true
  | .promise _ => true

/-- Rendering of a JavaScript number in messages: integers print as
integers; non-integral rationals print as `num/den` (a schematic stand-in
for the decimal expansion, which no claim depends on). -/
def jsNumToString (q : ℚ) : String :=
  if q.den = 1 then toString q.num else toString q.num ++ "/" ++ toString q.den

mutual

/-- JavaScript string coercion, as performed by template literals and
`String(...)`: arrays join their elements with `","` (with `null` and
`undefined` elements becoming empty), plain objects print as
`[object Object]`. -/
def toJSString : JSValue → String
  | .undefined => "undefined"
  | .null => "null"
  | .bool b => if b then "true" else "false"
  | .num q => jsNumToString q
  | .str s => s
  | .arr xs => joinElems xs
  | .obj _ => "[object Object]"
  | .promise _ => "[object Promise]"
termination_by structural v => v

/-- `Array.prototype.toString`: comma-joined elements, `null`/`undefined`
elements rendered as the empty string. -/
def joinElems : List JSValue → String
  | [] => ""
  | [.undefined] => ""
  | [.null] => ""
  | [x] => toJSString x
  | .undefined :: y :: rest => "," ++ joinElems (y :: rest)
  | .null :: y :: rest => "," ++ joinElems (y :: rest)
  | x :: y :: rest => toJSString x ++ "," ++ joinElems (y :: rest)
termination_by structural l => l

end

/-- One element under `Array.prototype.join`: `null` and `undefined`
become the empty string. -/
def elemString : JSValue → String
  | .undefined => ""
  | .null => ""
  | v => toJSString v

/-- `Array.prototype.join` with an explicit separator (used by the
Multi-Type Fields failure message). -/
def jsJoin (xs : List JSValue) (sep : String) : String :=
  String.intercalate sep (xs.map elemString)

/-- Coercion of a value used as a property key (JavaScript coerces keys
with `ToString`). -/
def toPropKey (v : JSValue) : String := toJSString v

/-- `pat.isPrefixOfChars s`: does the character list `pat` start `s`? -/
def charsHavePre : List Char → List Char → Bool
  | [], _ => true
  | _ :: _, [] => false
  | p :: ps, c :: cs => p == c && charsHavePre ps cs

/-- Substring search on character lists. -/
def charsContainSub (pat : List Char) : List Char → Bool
  | [] => charsHavePre pat []
  | c :: cs => charsHavePre pat (c :: cs) || charsContainSub pat cs

/-- `String.prototype.includes`. -/
def strContains (s pat : String) : Bool := charsContainSub pat.data s.data

/-- Total property access (only called on non-`null`, non-`undefined`
receivers): objects look up the first binding, arrays expose numeric
indices and `length`, strings expose characters and `length`; every
other receiver (numbers, booleans, promises) has none of the accessed
properties and yields `undefined`. -/
def JSValue.getField : JSValue → String → JSValue
  | .obj fields, k =>
    match fields.find? (fun p => p.1 == k) with
    | some p => p.2
    | none => .undefined
  | .arr xs, k =>
    if k == "length" then .num xs.length
    else
      match k.toNat? with
      | some i => if h : i < xs.length then xs.get ⟨i, h⟩ else .undefined
      | none => .undefined
  | .str s, k =>
    if k == "length" then .num s.length
    else
      match k.toNat? with
      | some i =>
        match s.data.get? i with
        | some c => .str (String.mk [c])
        | none => .undefined
      | none => .undefined
  | _, _ => .undefined

/-- Property access as an effect: reading a property of `null` or
`undefined` throws a `TypeError` (text modelled schematically). -/
def JSValue.getFieldE : JSValue → String → Except String JSValue
  | .null, k => .error ("Cannot read properties of null (reading '" ++ k ++ "')")
  | .undefined, k => .error ("Cannot read properties of undefined (reading '" ++ k ++ "')")
  | v, k => .ok (v.getField k)

/-- Own-property test (total form, receiver not `null`/`undefined`). -/
def hasOwnProp : JSValue → String → Bool
  | .obj fields, k => (fields.map Prod.fst).contains k
  | .arr xs, k =>
    k == "length" ||
      (match k.toNat? with
       | some i => decide (i < xs.length)
       | none => false)
  | .str s, k =>
    k == "length" ||
      (match k.toNat? with
       | some i => decide (i < s.length)
       | none => false)
  | _, _ => false

/-- `Object.prototype.hasOwnProperty.call(obj, k)` (and `obj.hasOwnProperty(k)`):
throws on a `null`/`undefined` receiver. -/
def hasOwnPropE : JSValue → String → Except String Bool
  | .null, _ => .error "Cannot convert undefined or null to object"
  | .undefined, _ => .error "Cannot convert undefined or null to object"
  | v, k => .ok (hasOwnProp v k)

/-- `Object.keys`: own enumerable keys, insertion order; numbers and
booleans have none; throws on `null`/`undefined`. -/
def keysOfE : JSValue → Except String (List String)
  | .null => .error "Cannot convert undefined or null to object"
  | .undefined => .error "Cannot convert undefined or null to object"
  | .obj fields => .ok (fields.map Prod.fst)
  | .arr xs => .ok ((List.range xs.length).map toString)
  | .str s => .ok ((List.range s.length).map toString)
  | _ => .ok []

/-- `for (const k in v)`: like `Object.keys` but silently empty on
non-objects, `null` and `undefined`. -/
def forInKeys : JSValue → List String
  | .obj fields => fields.map Prod.fst
  | .arr xs => (List.range xs.length).map toString
  | .str s => (List.range s.length).map toString
  | _ => []

/-- JavaScript strict equality `===` (also the SameValueZero comparison
used by `Set` and `Array.prototype.includes` on the values the engine
sees).  Primitives compare structurally; objects, arrays and promises
compare by reference and the engine only ever compares distinct fresh
references, so composite operands compare unequal. -/
def jsStrictEq : JSValue → JSValue → Bool
  | .undefined, .undefined => true
  | .null, .null => true
  | .bool a, .bool b => a == b
  | .num a, .num b => a == b
  | .str a, .str b => a == b
  | _, _ => false

/-- `for (const x of v)` / `new Set(v)` iteration: arrays yield their
elements, strings their characters; everything else throws. -/
def jsIterate : JSValue → Except String (List JSValue)
  | .arr xs => .ok xs
  | .str s => .ok (s.data.map (fun c => JSValue.str (String.mk [c])))
  | v => .error (toJSString v ++ " is not iterable")

/-- `Array.isArray(inputs) ? inputs : [inputs]`. -/
def toArrayOrSingleton : JSValue → List JSValue
  | .arr xs => xs
  | v => [v]

/-- Size of `new Set(xs)` under SameValueZero: primitive duplicates
collapse, composite elements are distinct fresh references. -/
def jsSetSize (xs : List JSValue) : Nat :=
  go xs []
where
  /-- Fold the elements, keeping the primitives already seen. -/
  go : List JSValue → List JSValue → Nat
    | [], _ => 0
    | v :: rest, seen =>
      if seen.any (fun w => jsStrictEq w v) then go rest seen
      else 1 + go rest (v :: seen)

/-- Destructuring default: `const { x = d } = inputs` replaces only
`undefined` by the default. -/
def defaultIfUndef (v d : JSValue) : JSValue :=
  match v with
  | .undefined => d
  | _ => v

/-- Rest pattern `const { path, ...rest } = inputs`: the own enumerable
properties of `inputs` other than `path`, as a fresh object. -/
def restObj : JSValue → JSValue
  | .obj fields => .obj (fields.filter (fun p => !(p.1 == "path")))
  | .arr xs => .obj (((List.range xs.length).map toString).zip xs)
  | .str s => .obj (((List.range s.length).map toString).zip (s.data.map (fun c => JSValue.str (String.mk [c]))))
  | _ => .obj []

/-- Read a value already known to be a boolean (`pass = result.status`
runs only after the shape guard, so the default arm is unreachable
there). -/
def asBool : JSValue → Bool
  | .bool b => b
  | _ => false

/-- Read a value already known to be a string (`result.error` is read
only after the shape guard, so the default arm is unreachable there). -/
def asStr : JSValue → String
  | .str s => s
  | _ => ""

/-- Template-literal interpolation `${v}` in a message string. -/
def jsDisplay (v : JSValue) : String := toJSString v

/-- Is the value strictly `null`? -/
def isNullV : JSValue → Bool
  | .null => true
  | _ => false

/-- `Array.isArray`. -/
def isArrV : JSValue → Bool
  | .arr _ => true
  | _ => false

/-- `typeof bound === "number" && len < bound` for a length bound. -/
def natBelow (len : Nat) (bound : JSValue) : Bool :=
  match bound with
  | .num q => decide ((len : ℚ) < q)
  | _ => false

/-- `typeof bound === "number" && len > bound` for a length bound. -/
def natAbove (len : Nat) (bound : JSValue) : Bool :=
  match bound with
  | .num q => decide ((len : ℚ) > q)
  | _ => false

/-- `typeof bound === "number" && v < bound` for a numeric field value. -/
def ratBelow (v : ℚ) (bound : JSValue) : Bool :=
  match bound with
  | .num q => decide (v < q)
  | _ => false

/-- `typeof bound === "number" && v > bound` for a numeric field value. -/
def ratAbove (v : ℚ) (bound : JSValue) : Bool :=
  match bound with
  | .num q => decide (v > q)
  | _ => false

/-- Outcome of invoking the `validate` export of a custom module:
a normal return of a JavaScript value (a synchronous `{status, error}`
object, or a `JSValue.promise` when the validator returns an awaitable),
or a thrown exception. -/
inductive CustomCall where
  | ret (v : JSValue)
  | thrown (msg : String)

/-- Result of `await import(path)`: the import itself may throw
(module not found, syntax error), or the module loads and either does or
does not expose a callable `validate` (a missing export and a
non-function export take the same branch in the source, so both are
`loaded none`). -/
inductive CustomModule where
  | importError (msg : String)
  | loaded (validateExport : Option (JSValue → JSValue → CustomCall))

/-- The impure host services the engine calls out to: regular-expression
compilation (`new RegExp` throws when invalid) and testing, date
parsing (`!isNaN(new Date(s).getTime())`), and dynamic `import` keyed by
the string-coerced module specifier. -/
structure JsOps where
  regexValid : String → Bool
  regexTest : String → String → Bool
  dateParses : String → Bool
  modules : String → CustomModule

/-- Evaluate the per-element checks of a loop left to right, stopping at
the first failing element, in an exception-capable way: `none` means
every element passed, `some m` is the first failure message (a `break`
in the source loops). -/
def firstFailE (f : α → Except String (Option String)) : List α → Except String (Option String)
  | [] => .ok none
  | x :: xs => do
    match ← f x with
    | some m => pure (some m)
    | none => firstFailE f xs

/-- Fold the outcome of a first-failure loop into the `(pass, msg)` pair
the evaluator returns: `msg` keeps its initial value on success. -/
def foldChecks : Option String → Bool × String
  | none => (true, "Assertion passed.")
  | some m => (false, m)

/-- Case `"Schema Compliance"` of `validateObjectLevel`. -/
def checkSchemaCompliance (obj inputs : JSValue) : Except String (Bool × String) := do
  let schema ← inputs.getFieldE "schema"
  let strictV ← inputs.getFieldE "strict"
  let strict := defaultIfUndef strictV (.bool false)
  if !(truthy schema) || typeofJS schema != "object" then
    pure (false, "No schema object provided in inputs.")
  else do
    let r1 ← firstFailE (fun fieldName => do
      let expectedType := schema.getField fieldName
      let v ← obj.getFieldE fieldName
      pure (if jsStrictEq (.str (typeofJS v)) expectedType then none
            else some ("Field \"" ++ fieldName ++ "\" should be type \"" ++
              jsDisplay expectedType ++ "\" but got \"" ++ typeofJS v ++ "\"."))) (forInKeys schema)
    match r1 with
    | some m => pure (false, m)
    | none =>
      if truthy strict then do
        let ks ← keysOfE obj
        let r2 ← firstFailE (fun key =>
          pure (if hasOwnProp schema key then none
                else some ("Strict schema compliance failed. Unexpected field \"" ++ key ++ "\"."))) ks
        pure (foldChecks r2)
      else pure (true, "Assertion passed.")

/-- Case `"Required Fields"` of `validateObjectLevel`. -/
def checkRequiredFields (obj inputs : JSValue) : Except String (Bool × String) := do
  let requiredFields := toArrayOrSingleton inputs
  let r ← firstFailE (fun field => do
    let has ← hasOwnPropE obj (toPropKey field)
    pure (if has then none
          else some ("Missing required field: \"" ++ jsDisplay field ++ "\"."))) requiredFields
  pure (foldChecks r)

/-- Case `"No Additional Fields"` of `validateObjectLevel`. -/
def checkNoAdditionalFields (obj inputs : JSValue) : Except String (Bool × String) := do
  let allowedFields := toArrayOrSingleton inputs
  let ks ← keysOfE obj
  let r ← firstFailE (fun key =>
    pure (if allowedFields.any (fun f => jsStrictEq (.str key) f) then none
          else some ("Unexpected field found: \"" ++ key ++ "\"."))) ks
  pure (foldChecks r)

/-- Case `"String Field Validation"` of `validateObjectLevel` (flat list
form and structured form). -/
def checkStringFieldValidation (ops : JsOps) (obj inputs : JSValue) :
    Except String (Bool × String) := do
  match inputs with
  | .arr fieldsList => do
    let r ← firstFailE (fun field => do
      let v ← obj.getFieldE (toPropKey field)
      match v with
      | .str s =>
        if s.trim.length == 0 then
          pure (some ("Field \"" ++ jsDisplay field ++ "\" cannot be an empty string."))
        else pure none
      | _ => pure (some ("Field \"" ++ jsDisplay field ++ "\" is not a string."))) fieldsList
    pure (foldChecks r)
  | _ => do
    let fieldsV ← inputs.getFieldE "fields"
    let minLength ← inputs.getFieldE "minLength"
    let maxLength ← inputs.getFieldE "maxLength"
    let patternV ← inputs.getFieldE "pattern"
    let fields ← jsIterate fieldsV
    let r ← firstFailE (fun field => do
      let v ← obj.getFieldE (toPropKey field)
      match v with
      | .str s =>
        let trimmed := s.trim
        if natBelow trimmed.length minLength then
          pure (some ("Field \"" ++ jsDisplay field ++ "\" length is below minimum " ++
            jsDisplay minLength ++ "."))
        else if natAbove trimmed.length maxLength then
          pure (some ("Field \"" ++ jsDisplay field ++ "\" length exceeds maximum " ++
            jsDisplay maxLength ++ "."))
        else if truthy patternV then
          let p := toJSString patternV
          if ops.regexValid p then
            if ops.regexTest p trimmed then pure none
            else pure (some ("Field \"" ++ jsDisplay field ++ "\" does not match pattern: " ++
              jsDisplay patternV))
          else throw ("Invalid regular expression: " ++ p)
        else pure none
      | _ => pure (some ("Field \"" ++ jsDisplay field ++ "\" is not a string."))) fields
    pure (foldChecks r)

/-- Case `"Number Field Validation"` of `validateObjectLevel` (flat list
form and structured form). -/
def checkNumberFieldValidation (obj inputs : JSValue) : Except String (Bool × String) := do
  match inputs with
  | .arr fieldsList => do
    let r ← firstFailE (fun field => do
      let v ← obj.getFieldE (toPropKey field)
      match v with
      | .num _ => pure none
      | _ => pure (some ("Field \"" ++ jsDisplay field ++ "\" is not a number."))) fieldsList
    pure (foldChecks r)
  | _ => do
    let fieldsV ← inputs.getFieldE "fields"
    let minV ← inputs.getFieldE "min"
    let maxV ← inputs.getFieldE "max"
    let integerOnlyV ← inputs.getFieldE "integerOnly"
    let integerOnly := defaultIfUndef integerOnlyV (.bool false)
    let fields ← jsIterate fieldsV
    let r ← firstFailE (fun field => do
      let v ← obj.getFieldE (toPropKey field)
      match v with
      | .num q =>
        if ratBelow q minV then
          pure (some ("Field \"" ++ jsDisplay field ++ "\" is below minimum value " ++
            jsDisplay minV ++ "."))
        else if ratAbove q maxV then
          pure (some ("Field \"" ++ jsDisplay field ++ "\" exceeds maximum value " ++
            jsDisplay maxV ++ "."))
        else if truthy integerOnly && !(q.den == 1) then
          pure (some ("Field \"" ++ jsDisplay field ++ "\" must be an integer."))
        else pure none
      | _ => pure (some ("Field \"" ++ jsDisplay field ++ "\" is not a number."))) fields
    pure (foldChecks r)

/-- Case `"Boolean Field Validation"` of `validateObjectLevel`. -/
def checkBooleanFieldValidation (obj inputs : JSValue) : Except String (Bool × String) := do
  let boolFields := toArrayOrSingleton inputs
  let r ← firstFailE (fun field => do
    let v ← obj.getFieldE (toPropKey field)
    match v with
    | .bool _ => pure none
    | _ => pure (some ("Field \"" ++ jsDisplay field ++ "\" is not a boolean."))) boolFields
  pure (foldChecks r)

/-- Case `"Array Validation"` of `validateObjectLevel` (the item-level
form with a named `field`). -/
def checkArrayValidation (obj inputs : JSValue) : Except String (Bool × String) := do
  let fieldV ← inputs.getFieldE "field"
  let minLength ← inputs.getFieldE "minLength"
  let maxLength ← inputs.getFieldE "maxLength"
  let enforceUnique ← inputs.getFieldE "enforceUnique"
  let arrV ← obj.getFieldE (toPropKey fieldV)
  match arrV with
  | .arr xs =>
    if natBelow xs.length minLength then
      pure (false, "Array \"" ++ jsDisplay fieldV ++ "\" length is below minimum " ++
        jsDisplay minLength ++ ".")
    else if natAbove xs.length maxLength then
      pure (false, "Array \"" ++ jsDisplay fieldV ++ "\" length exceeds maximum " ++
        jsDisplay maxLength ++ ".")
    else if truthy enforceUnique then
      if !(jsSetSize xs == xs.length) then
        pure (false, "Array \"" ++ jsDisplay fieldV ++ "\" contains duplicate elements.")
      else pure (true, "Assertion passed.")
    else pure (true, "Assertion passed.")
  | _ => pure (false, "Field \"" ++ jsDisplay fieldV ++ "\" is not an array.")

/-- Case `"Nested Object Validation"` of `validateObjectLevel`. -/
def checkNestedObjectValidation (obj inputs : JSValue) : Except String (Bool × String) := do
  let fieldV ← inputs.getFieldE "field"
  let requiredFieldsV ← inputs.getFieldE "requiredFields"
  let nestedObj ← obj.getFieldE (toPropKey fieldV)
  if typeofJS nestedObj != "object" || isNullV nestedObj || isArrV nestedObj then
    pure (false, "Field \"" ++ jsDisplay fieldV ++ "\" is not a valid nested object.")
  else do
    let rfs ← jsIterate requiredFieldsV
    let r ← firstFailE (fun rf => do
      let has ← hasOwnPropE nestedObj (toPropKey rf)
      pure (if has then none
            else some ("Missing nested field \"" ++ jsDisplay rf ++ "\" in object \"" ++
              jsDisplay fieldV ++ "\"."))) rfs
    pure (foldChecks r)

/-- Case `"Pattern Matching"` of `validateObjectLevel`: the regular
expression is compiled before the field is read, a falsy field value
defaults to the empty string. -/
def checkPatternMatching (ops : JsOps) (obj inputs : JSValue) : Except String (Bool × String) := do
  let fieldV ← inputs.getFieldE "field"
  let patternV ← inputs.getFieldE "pattern"
  let p := toJSString patternV
  if ops.regexValid p then do
    let v ← obj.getFieldE (toPropKey fieldV)
    let val := if truthy v then v else .str ""
    if ops.regexTest p (toJSString val) then pure (true, "Assertion passed.")
    else
      pure (false, "Field \"" ++ jsDisplay fieldV ++ "\" does not match pattern: " ++
        jsDisplay patternV)
  else throw ("Invalid regular expression: " ++ p)

/-- Case `"Enumeration Validation"` of `validateObjectLevel`:
`allowedValues.includes(val)` — array membership under SameValueZero,
substring search when `allowedValues` is a string, a thrown `TypeError`
otherwise. -/
def checkEnumerationValidation (obj inputs : JSValue) : Except String (Bool × String) := do
  let fieldV ← inputs.getFieldE "field"
  let allowedValuesV ← inputs.getFieldE "allowedValues"
  let val ← obj.getFieldE (toPropKey fieldV)
  let failMsg := "Field \"" ++ jsDisplay fieldV ++ "\" has invalid value: \"" ++
    jsDisplay val ++ "\". Allowed: " ++ jsDisplay allowedValuesV
  match allowedValuesV with
  | .arr avs =>
    if avs.any (fun a => jsStrictEq a val) then pure (true, "Assertion passed.")
    else pure (false, failMsg)
  | .str s =>
    if strContains s (toJSString val) then pure (true, "Assertion passed.")
    else pure (false, failMsg)
  | .null => throw "Cannot read properties of null (reading 'includes')"
  | .undefined => throw "Cannot read properties of undefined (reading 'includes')"
  | _ => throw "allowedValues.includes is not a function"

/-- Case `"Date Field Validation"` of `validateObjectLevel`. -/
def checkDateFieldValidation (ops : JsOps) (obj inputs : JSValue) :
    Except String (Bool × String) := do
  let fieldV ← inputs.getFieldE "field"
  let validateActualDateV ← inputs.getFieldE "validateActualDate"
  let dateValue ← obj.getFieldE (toPropKey fieldV)
  match dateValue with
  | .str s =>
    if truthy validateActualDateV && !(ops.dateParses s) then
      pure (false, "Field \"" ++ jsDisplay fieldV ++ "\" is not a valid date: " ++ s)
    else pure (true, "Assertion passed.")
  | _ => pure (false, "Field \"" ++ jsDisplay fieldV ++ "\" is not a string date.")

/-- Case `"Nullability"` of `validateObjectLevel`: a `nonNullable` field
fails only when its value is strictly `null` (an absent field reads as
`undefined` and passes); a `nullable` field, when present, must be
strictly `null`.  The second loop runs only if the first passed. -/
def checkNullability (obj inputs : JSValue) : Except String (Bool × String) := do
  let nonNullableV ← inputs.getFieldE "nonNullable"
  let nonNullable := defaultIfUndef nonNullableV (.arr [])
  let nullableV ← inputs.getFieldE "nullable"
  let nullable := defaultIfUndef nullableV (.arr [])
  let nn ← jsIterate nonNullable
  let r1 ← firstFailE (fun field => do
    let v ← obj.getFieldE (toPropKey field)
    pure (if jsStrictEq v .null then
            some ("Field \"" ++ jsDisplay field ++ "\" should not be null.")
          else none)) nn
  match r1 with
  | some m => pure (false, m)
  | none => do
    let nl ← jsIterate nullable
    let r2 ← firstFailE (fun field => do
      let has ← hasOwnPropE obj (toPropKey field)
      if has then do
        let v ← obj.getFieldE (toPropKey field)
        pure (if jsStrictEq v .null then none
              else some ("Field \"" ++ jsDisplay field ++ "\" must be null if present."))
      else pure none) nl
    pure (foldChecks r2)

/-- Case `"Default Values"` of `validateObjectLevel`. -/
def checkDefaultValues (obj inputs : JSValue) : Except String (Bool × String) := do
  let fieldV ← inputs.getFieldE "field"
  let defaultValueV ← inputs.getFieldE "defaultValue"
  let has ← hasOwnPropE obj (toPropKey fieldV)
  if has then pure (true, "Assertion passed.")
  else
    pure (false, "Missing field \"" ++ jsDisplay fieldV ++ "\". Expected a default of \"" ++
      jsDisplay defaultValueV ++ "\".")

/-- Case `"Strict Validation"` of `validateObjectLevel`. -/
def checkStrictValidation (obj inputs : JSValue) : Except String (Bool × String) := do
  let allowedFieldsV ← inputs.getFieldE "allowedFields"
  let allowedFields := defaultIfUndef allowedFieldsV (.arr [])
  let allowed ← jsIterate allowedFields
  let ks ← keysOfE obj
  let r ← firstFailE (fun key =>
    pure (if allowed.any (fun f => jsStrictEq (.str key) f) then none
          else some ("Strict validation failed: unexpected field \"" ++ key ++ "\"."))) ks
  pure (foldChecks r)

/-- Case `"Custom Logic"` of `validateObjectLevel`: `&&` short-circuits,
so `obj[thenField]` is read only when `obj[ifField]` is truthy. -/
def checkCustomLogic (obj inputs : JSValue) : Except String (Bool × String) := do
  let ifFieldV ← inputs.getFieldE "ifField"
  let thenFieldV ← inputs.getFieldE "thenField"
  let vIf ← obj.getFieldE (toPropKey ifFieldV)
  if truthy vIf then do
    let vThen ← obj.getFieldE (toPropKey thenFieldV)
    match vThen with
    | .undefined =>
      pure (false, "If \"" ++ jsDisplay ifFieldV ++ "\" is present, \"" ++
        jsDisplay thenFieldV ++ "\" must be set.")
    | _ => pure (true, "Assertion passed.")
  else pure (true, "Assertion passed.")

/-- Case `"Data Transformation"` of `validateObjectLevel`. -/
def checkDataTransformation (obj inputs : JSValue) : Except String (Bool × String) := do
  let fieldV ← inputs.getFieldE "field"
  let expectedV ← inputs.getFieldE "expectedTypeAfterCoercion"
  let v ← obj.getFieldE (toPropKey fieldV)
  if jsStrictEq (.str (typeofJS v)) expectedV then pure (true, "Assertion passed.")
  else
    pure (false, "Field \"" ++ jsDisplay fieldV ++ "\" is not coerced to type \"" ++
      jsDisplay expectedV ++ "\".")

/-- Case `"Multi-Type Fields"` of `validateObjectLevel`.  The failure
message calls `allowedTypes.join`, which throws when `allowedTypes` is a
string, so a failing string-typed `allowedTypes` throws while a passing
one returns. -/
def checkMultiTypeFields (obj inputs : JSValue) : Except String (Bool × String) := do
  let fieldV ← inputs.getFieldE "field"
  let allowedTypesV ← inputs.getFieldE "allowedTypes"
  let v ← obj.getFieldE (toPropKey fieldV)
  let actualType := typeofJS v
  match allowedTypesV with
  | .arr ts =>
    if ts.any (fun t => jsStrictEq t (.str actualType)) then pure (true, "Assertion passed.")
    else
      pure (false, "Field \"" ++ jsDisplay fieldV ++ "\" has type \"" ++ actualType ++
        "\" but must be one of [" ++ jsJoin ts ", " ++ "].")
  | .str s =>
    if strContains s actualType then pure (true, "Assertion passed.")
    else throw "allowedTypes.join is not a function"
  | .null => throw "Cannot read properties of null (reading 'includes')"
  | .undefined => throw "Cannot read properties of undefined (reading 'includes')"
  | _ => throw "allowedTypes.includes is not a function"

/-- Case `"Error Messaging"` of `validateObjectLevel`. -/
def checkErrorMessaging (obj inputs : JSValue) : Except String (Bool × String) := do
  let errorFieldV ← inputs.getFieldE "errorField"
  let errorField := defaultIfUndef errorFieldV (.str "error")
  let messageContainsV ← inputs.getFieldE "messageContains"
  let errMsgV ← obj.getFieldE (toPropKey errorField)
  match errMsgV with
  | .str s =>
    if truthy messageContainsV && !(strContains s (toJSString messageContainsV)) then
      pure (false, "Error message does not contain: \"" ++ jsDisplay messageContainsV ++
        "\". Actual: \"" ++ s ++ "\"")
    else pure (true, "Assertion passed.")
  | _ =>
    pure (false, "Expected a string in \"" ++ jsDisplay errorField ++ "\" but got " ++
      typeofJS errMsgV ++ ".")

/-- Case `"Read-Only Fields"` of `validateObjectLevel`. -/
def checkReadOnlyFields (obj inputs : JSValue) : Except String (Bool × String) := do
  let readOnlyFields := toArrayOrSingleton inputs
  let r ← firstFailE (fun roField => do
    let has ← hasOwnPropE obj (toPropKey roField)
    pure (if has then
            some ("Read-only field \"" ++ jsDisplay roField ++
              "\" should not be present or changed.")
          else none)) readOnlyFields
  pure (foldChecks r)

/-- Case `"Disallowed Pattern"` of `validateObjectLevel`. -/
def checkDisallowedPattern (ops : JsOps) (obj inputs : JSValue) :
    Except String (Bool × String) := do
  let fieldV ← inputs.getFieldE "field"
  let dpV ← inputs.getFieldE "disallowedPattern"
  let p := toJSString dpV
  if ops.regexValid p then do
    let v ← obj.getFieldE (toPropKey fieldV)
    let val := if truthy v then v else .str ""
    if ops.regexTest p (toJSString val) then
      pure (false, "Field \"" ++ jsDisplay fieldV ++ "\" has disallowed characters matching: " ++
        jsDisplay dpV)
    else pure (true, "Assertion passed.")
  else throw ("Invalid regular expression: " ++ p)

/-- Case `"Custom"` of `validateObjectLevel`: destructure `path` and the
rest of the inputs (outside the inner `try`, so a `null`/`undefined`
`inputs` throws out to the runner), then inside the inner `try` import
the module, demand a callable `validate` export, call it **without
awaiting**, and validate the returned value's `{status, error}` shape by
reading its properties — a returned promise therefore fails the shape
check.  Every throw inside the `try` is caught and becomes a failed
result. -/
def checkCustom (ops : JsOps) (obj inputs : JSValue) : Except String (Bool × String) := do
  let pathV ← inputs.getFieldE "path"
  let rest := restObj inputs
  match ops.modules (toJSString pathV) with
  | .importError m => pure (false, "Error running custom assertion script: " ++ m)
  | .loaded none => pure (false, "Custom script does not export a 'validate' function.")
  | .loaded (some validate) =>
    match validate obj rest with
    | .thrown m => pure (false, "Error running custom assertion script: " ++ m)
    | .ret result =>
      if !(truthy result) || typeofJS (result.getField "status") != "boolean" ||
          typeofJS (result.getField "error") != "string" then
        pure (false,
          "Custom script returned invalid structure. Must be \x7b status: boolean, error: string \x7d.")
      else
        let b := asBool (result.getField "status")
        let e := asStr (result.getField "error")
        if b then pure (true, "Assertion passed.")
        else pure (false, if e == "" then "Custom assertion script failed." else e)

/-- `validateObjectLevel`: the object-level evaluator — the big `switch`
over the assertion kind.  A `switch` on a string is a chain of strict
string comparisons, embedded here as an `if`-chain; the `default` case
leaves `pass = true` and only replaces the message with the
"unrecognized assertion type" diagnostic. -/
def validateObjectLevel (ops : JsOps) (obj : JSValue) (assertion : String) (inputs : JSValue) :
    Except String (Bool × String) :=
  if assertion = "Schema Compliance" then checkSchemaCompliance obj inputs
  else if assertion = "Required Fields" then checkRequiredFields obj inputs
  else if assertion = "No Additional Fields" then checkNoAdditionalFields obj inputs
  else if assertion = "String Field Validation" then checkStringFieldValidation ops obj inputs
  else if assertion = "Number Field Validation" then checkNumberFieldValidation obj inputs
  else if assertion = "Boolean Field Validation" then checkBooleanFieldValidation obj inputs
  else if assertion = "Array Validation" then checkArrayValidation obj inputs
  else if assertion = "Nested Object Validation" then checkNestedObjectValidation obj inputs
  else if assertion = "Pattern Matching" then checkPatternMatching ops obj inputs
  else if assertion = "Enumeration Validation" then checkEnumerationValidation obj inputs
  else if assertion = "Date Field Validation" then checkDateFieldValidation ops obj inputs
  else if assertion = "Nullability" then checkNullability obj inputs
  else if assertion = "Default Values" then checkDefaultValues obj inputs
  else if assertion = "Strict Validation" then checkStrictValidation obj inputs
  else if assertion = "Custom Logic" then checkCustomLogic obj inputs
  else if assertion = "Data Transformation" then checkDataTransformation obj inputs
  else if assertion = "Multi-Type Fields" then checkMultiTypeFields obj inputs
  else if assertion = "Error Messaging" then checkErrorMessaging obj inputs
  else if assertion = "Read-Only Fields" then checkReadOnlyFields obj inputs
  else if assertion = "Disallowed Pattern" then checkDisallowedPattern ops obj inputs
  else if assertion = "Custom" then checkCustom ops obj inputs
  else pure (true, "Unrecognized assertion type: \"" ++ assertion ++ "\". Skipping.")

/-- `validateArrayLevel`: checks applied to the collection as a whole.
Only `"Array Validation"` is implemented: it checks the two length
bounds; the source notes top-level uniqueness "you'd implement it here"
and implements nothing — `enforceUnique` never reaches this function's
logic.  The `default` case leaves `pass = true`. -/
def validateArrayLevel (arrayData : List JSValue) (assertion : String) (inputs : JSValue) :
    Except String (Bool × String) :=
  if assertion = "Array Validation" then do
    let minLength ← inputs.getFieldE "minLength"
    let maxLength ← inputs.getFieldE "maxLength"
    if natBelow arrayData.length minLength then
      pure (false, "Array length is below minimum " ++ jsDisplay minLength ++
        ". Actual length = " ++ toString arrayData.length)
    else if natAbove arrayData.length maxLength then
      pure (false, "Array length exceeds maximum " ++ jsDisplay maxLength ++
        ". Actual length = " ++ toString arrayData.length)
    else pure (true, "Assertion passed.")
  else pure (true, "Unrecognized array-level assertion: \"" ++ assertion ++ "\". Skipping.")

/-- Element preparation in the fan-out: a non-object item
(`typeof item !== "object" || item === null`) is wrapped as
`{ value: item }` before the object-level checks; objects and arrays
pass through unchanged. -/
def wrapItem (item : JSValue) : JSValue :=
  if typeofJS item != "object" || isNullV item then .obj [("value", item)] else item

/-- The fan-out loop of `validateOnArrayItems`: evaluate the object-level
check on every element in order starting at index `i`, collecting
`(failedIndex, subMessage)` pairs; an exception from any element
propagates (the source `await`s without a local `try`). -/
def fanOutFailures (ops : JsOps) (assertion : String) (inputs : JSValue) :
    List JSValue → Nat → Except String (List (Nat × String))
  | [], _ => .ok []
  | item :: rest, i => do
    let lr ← validateObjectLevel ops (wrapItem item) assertion inputs
    let tail ← fanOutFailures ops assertion inputs rest (i + 1)
    pure (if lr.1 then tail
          else (i, "Index " ++ toString i ++ ": " ++ lr.2) :: tail)

/-- `validateOnArrayItems`: run an object-level assertion over every
element of the array and fold the failures into a single result; the
message lists the failing indices and joins the per-index sub-messages
with `" | "`. -/
def validateOnArrayItems (ops : JsOps) (arrayData : List JSValue) (assertion : String)
    (inputs : JSValue) : Except String (Bool × String) := do
  let fails ← fanOutFailures ops assertion inputs arrayData 0
  if fails.isEmpty then pure (true, "Assertion passed.")
  else
    pure (false, "Item(s) at index [" ++
      String.intercalate ", " (fails.map (fun p => toString p.1)) ++
      "] failed. Reasons: " ++ String.intercalate " | " (fails.map Prod.snd))

/-- `classifyAssertion`: `(arrayCheck, objectCheck)`; the array-level set
holds exactly `"Array Validation"` and `objectCheck` is its negation. -/
def classifyAssertion (assertionType : String) : Bool × Bool :=
  let arrayCheck := ["Array Validation"].contains assertionType
  (arrayCheck, !arrayCheck)

/-- One assertion object `{ assertion, inputs }` from the spec list. -/
structure AssertionObj where
  assertion : String
  inputs : JSValue

/-- One entry of the result list `{ assertion, passed, message }`. -/
structure AssertionResult where
  assertion : String
  passed : Bool
  message : String
deriving DecidableEq, Repr

/-- The body of the per-spec `try` block in `runAssertions`: dispatch on
whether the response is an array and on the classification, and merge
the branch outcome into the initial `(true, "Assertion passed.")` state
— the branch message is copied only when the branch failed.  The third
branch (classifier returning neither) keeps `passed = true` and sets the
diagnostic message; it is unreachable because `objectCheck` is defined
as the negation of `arrayCheck`. -/
def dispatchSpec (ops : JsOps) (responseData : JSValue) (assertion : String) (inputs : JSValue) :
    Except String (Bool × String) :=
  match responseData with
  | .arr items =>
    let c := classifyAssertion assertion
    if c.1 then do
      let (pass, msg) ← validateArrayLevel items assertion inputs
      pure (if pass then (true, "Assertion passed.") else (false, msg))
    else if c.2 then do
      let (pass, msg) ← validateOnArrayItems ops items assertion inputs
      pure (if pass then (true, "Assertion passed.") else (false, msg))
    else
      pure (true, "Unrecognized assertion type: \"" ++ assertion ++ "\". Skipping.")
  | _ => do
    let (pass, msg) ← validateObjectLevel ops responseData assertion inputs
    pure (if pass then (true, "Assertion passed.") else (false, msg))

/-- One iteration of the `runAssertions` loop: the whole dispatch is
wrapped in `try`/`catch` and a caught exception becomes a failed result
carrying the exception's message. -/
def evalSpec (ops : JsOps) (responseData : JSValue) (a : AssertionObj) : AssertionResult :=
  match dispatchSpec ops responseData a.assertion a.inputs with
  | .ok (passed, message) => ⟨a.assertion, passed, message⟩
  | .error err =>
    ⟨a.assertion, false, "Error during assertion \"" ++ a.assertion ++ "\": " ++ err⟩

/-- `runAssertions`: push exactly one result per assertion object, in
input order. -/
def runAssertions (ops : JsOps) (responseData : JSValue) :
    List AssertionObj → List AssertionResult
  | [] => []
  | a :: rest => evalSpec ops responseData a :: runAssertions ops responseData rest

/-- Decidable equality of evaluator outcomes, for concrete witnesses. -/
instance {ε α : Type _} [DecidableEq ε] [DecidableEq α] : DecidableEq (Except ε α) := fun x y =>
  match x, y with
  | .ok a, .ok b =>
    if h : a = b then .isTrue (by rw [h]) else .isFalse (by intro hc; injection hc; exact h (by assumption))
  | .ok _, .error _ => .isFalse (fun hc => Except.noConfusion hc)
  | .error _, .ok _ => .isFalse (fun hc => Except.noConfusion hc)
  | .error e, .error f =>
    if h : e = f then .isTrue (by rw [h]) else .isFalse (by intro hc; injection hc; exact h (by assumption))

/-- A trivial host environment for concrete evaluations: every pattern
compiles and matches, every date parses, no module resolves. -/
def trivOps : JsOps :=
  ⟨fun _ => true, fun _ _ => true, fun _ => true, fun _ => .importError "Cannot find module"⟩

/-- The closed set of assertion kinds recognized by the engine (the 21
`case` labels of `validateObjectLevel`; `"Array Validation"` is also the
single array-level kind). -/
def recognizedKinds : List String :=
  ["Schema Compliance", "Required Fields", "No Additional Fields",
   "String Field Validation", "Number Field Validation", "Boolean Field Validation",
   "Array Validation", "Nested Object Validation", "Pattern Matching",
   "Enumeration Validation", "Date Field Validation", "Nullability",
   "Default Values", "Strict Validation", "Custom Logic", "Data Transformation",
   "Multi-Type Fields", "Error Messaging", "Read-Only Fields",
   "Disallowed Pattern", "Custom"]

/-- Host environment for the C6 counterexample: the module at `"m"`
exposes a `validate` whose return is an awaitable (a promise) resolving
to a well-shaped passing `{status: true, error: "ok"}` object. -/
def promiseOps : JsOps :=
  ⟨fun _ => true, fun _ _ => true, fun _ => true, fun p =>
    if p = "m" then
      .loaded (some (fun _ _ =>
        .ret (.promise (.obj [("status", .bool true), ("error", .str "ok")]))))
    else .importError "Cannot find module"⟩

/-- Host environment for the C6 witness: a synchronous passing validator
at `"sync"` and a promise-returning validator at `"pro"`. -/
def c6ops : JsOps :=
  ⟨fun _ => true, fun _ _ => true, fun _ => true, fun p =>
    if p = "sync" then
      .loaded (some (fun _ _ => .ret (.obj [("status", .bool true), ("error", .str "ok")])))
    else if p = "pro" then
      .loaded (some (fun _ _ =>
        .ret (.promise (.obj [("status", .bool true), ("error", .str "ok")]))))
    else .importError "Cannot find module"⟩

/-- Host environment for the C7 witness, one module per violation:
`"e1"` fails to import, `"e2"` lacks the `validate` export, `"e3"`
throws when invoked, `"e4"` returns a number instead of the
`{status, error}` object, `"e5"` returns `{status: false, error: "bad"}`. -/
def c7ops : JsOps :=
  ⟨fun _ => true, fun _ _ => true, fun _ => true, fun p =>
    if p = "e1" then .importError "not found"
    else if p = "e2" then .loaded none
    else if p = "e3" then .loaded (some (fun _ _ => .thrown "boom"))
    else if p = "e4" then .loaded (some (fun _ _ => .ret (.num 5)))
    else if p = "e5" then
      .loaded (some (fun _ _ => .ret (.obj [("status", .bool false), ("error", .str "bad")])))
    else .loaded none⟩

/-- The per-field check of the `nonNullable` loop of the Nullability
rule, on an object-shaped record. -/
def nonNullCheckF (fs : List (String × JSValue)) : JSValue → Except String (Option String) :=
  fun field => do
    let v ← (JSValue.obj fs).getFieldE (toPropKey field)
    pure (if jsStrictEq v .null then
            some ("Field \"" ++ jsDisplay field ++ "\" should not be null.")
          else none)

/-- The runner loop is the pointwise map of the pure per-spec evaluator
over the spec list: no state flows between iterations. -/
lemma runAssertions_eq_map (ops : JsOps) (responseData : JSValue) :
    ∀ specs : List AssertionObj,
      runAssertions ops responseData specs = specs.map (evalSpec ops responseData)
  | [] => rfl
  | _ :: rest => by
    rw [runAssertions, List.map_cons, runAssertions_eq_map ops responseData rest]

/-- C2: for every response value and every list of assertion specs,
`runAssertions` returns exactly one result per spec, and the i-th result
carries the i-th spec's kind, in the same relative order. -/
theorem C2_one_result_per_spec_in_order (ops : JsOps) (responseData : JSValue)
    (specs : List AssertionObj) :
    (runAssertions ops responseData specs).length = specs.length ∧
    (runAssertions ops responseData specs).map AssertionResult.assertion =
      specs.map AssertionObj.assertion := by
  rw [runAssertions_eq_map]
  constructor
  · simp
  · rw [List.map_map]
    apply List.map_congr_left
    intro a _
    cases h : dispatchSpec ops responseData a.assertion a.inputs with
    | ok pr => simp [evalSpec, h]
    | error e => simp [evalSpec, h]

/-- C8: excluding "Custom" specs, running the engine twice on the same
unchanged inputs yields identical result lists.  In this embedding the
engine is a pure function of the response value, the spec list and the
host environment — the source performs no writes to `responseData` or to
the spec objects — and the result list is the pointwise image of a pure
per-spec evaluator, so the two runs coincide definitionally. -/
theorem C8_idempotent_runs (ops : JsOps) (responseData : JSValue)
    (specs : List AssertionObj) (_hnc : ∀ s ∈ specs, s.assertion ≠ "Custom") :
    runAssertions ops responseData specs = specs.map (evalSpec ops responseData) ∧
    runAssertions ops responseData specs = runAssertions ops responseData specs :=
  ⟨runAssertions_eq_map ops responseData specs, rfl⟩

/-- Witness for C8 at a concrete response and spec list. -/
theorem C8_idempotent_runs_witness :
    runAssertions trivOps (.obj [("id", .num 1)]) [⟨"Required Fields", .arr [.str "id"]⟩] =
      [⟨"Required Fields", .arr [.str "id"]⟩].map (evalSpec trivOps (.obj [("id", .num 1)])) ∧
    runAssertions trivOps (.obj [("id", .num 1)]) [⟨"Required Fields", .arr [.str "id"]⟩] =
      runAssertions trivOps (.obj [("id", .num 1)]) [⟨"Required Fields", .arr [.str "id"]⟩] :=
  C8_idempotent_runs trivOps (.obj [("id", .num 1)]) [⟨"Required Fields", .arr [.str "id"]⟩]
    (by intro s hs; simp at hs; subst hs; decide)

/-- C10: the item fan-out applied to the empty collection yields a
passing result with the untouched initial message, for every item-level
kind and every inputs value — no per-index evaluation happens, so even
kinds that fail on any single record pass vacuously. -/
theorem C10_empty_collection_vacuous_pass (ops : JsOps) (kind : String) (inputs : JSValue)
    (hk : kind ≠ "Array Validation") :
    validateOnArrayItems ops [] kind inputs = .ok (true, "Assertion passed.") ∧
    runAssertions ops (.arr []) [⟨kind, inputs⟩] = [⟨kind, true, "Assertion passed."⟩] := by
  refine ⟨rfl, ?_⟩
  have hclass : classifyAssertion kind = (false, true) := by
    simp [classifyAssertion, hk]
  have hd : dispatchSpec ops (.arr []) kind inputs = .ok (true, "Assertion passed.") := by
    simp only [dispatchSpec, hclass]
    rfl
  rw [runAssertions, runAssertions]
  simp [evalSpec, hd]

/-- Witness for C10: the "Required Fields" kind passes on the empty
collection even though it fails on a single empty record. -/
theorem C10_empty_collection_vacuous_pass_witness :
    (validateOnArrayItems trivOps [] "Required Fields" (.arr [.str "id"]) =
      .ok (true, "Assertion passed.") ∧
     runAssertions trivOps (.arr []) [⟨"Required Fields", .arr [.str "id"]⟩] =
      [⟨"Required Fields", true, "Assertion passed."⟩]) ∧
    validateObjectLevel trivOps (.obj []) "Required Fields" (.arr [.str "id"]) =
      .ok (false, "Missing required field: \"id\".") :=
  ⟨C10_empty_collection_vacuous_pass trivOps "Required Fields" (.arr [.str "id"])
    (by decide), by decide⟩

/-- An unrecognized kind reaches the `default` case of the object-level
evaluator: it keeps `pass = true` and only sets the diagnostic message. -/
lemma validateObjectLevel_unknown (ops : JsOps) (obj : JSValue) (kind : String)
    (inputs : JSValue) (h : kind ∉ recognizedKinds) :
    validateObjectLevel ops obj kind inputs =
      .ok (true, "Unrecognized assertion type: \"" ++ kind ++ "\". Skipping.") := by
  simp only [recognizedKinds, List.mem_cons, List.mem_singleton, not_or] at h
  obtain ⟨h1, h2, h3, h4, h5, h6, h7, h8, h9, h10, h11, h12, h13, h14, h15, h16, h17, h18,
    h19, h20, h21, -⟩ := h
  rw [validateObjectLevel, if_neg h1, if_neg h2, if_neg h3, if_neg h4, if_neg h5, if_neg h6,
    if_neg h7, if_neg h8, if_neg h9, if_neg h10, if_neg h11, if_neg h12, if_neg h13,
    if_neg h14, if_neg h15, if_neg h16, if_neg h17, if_neg h18, if_neg h19, if_neg h20,
    if_neg h21]
  rfl

/-- The fan-out of an unrecognized kind over any collection collects no
failing index: every element takes the passing `default` case. -/
lemma fanOutFailures_unknown (ops : JsOps) (kind : String) (inputs : JSValue)
    (h : kind ∉ recognizedKinds) :
    ∀ (l : List JSValue) (k : Nat), fanOutFailures ops kind inputs l k = .ok []
  | [], _ => rfl
  | item :: rest, k => by
    rw [fanOutFailures, validateObjectLevel_unknown ops (wrapItem item) kind inputs h]
    rw [fanOutFailures_unknown ops kind inputs h rest (k + 1)]
    rfl

/-- Counterexample to C4 as stated: on an object response and the
unrecognized kind `"Bogus"`, the produced result passes but its message
is the untouched generic pass message — the evaluator's "Unrecognized
assertion type" diagnostic never reaches the result, because the runner
copies the branch message only when the branch failed. -/
theorem C4_counterexample :
    runAssertions trivOps (.obj []) [⟨"Bogus", .null⟩] =
      [⟨"Bogus", true, "Assertion passed."⟩] ∧
    strContains "Assertion passed." "Unrecognized" = false ∧
    strContains "Assertion passed." "unrecognized" = false := by
  refine ⟨by decide, by decide, by decide⟩

/-- C4 (amended): for every response value (object or collection) and
every spec whose kind is not in the catalog, the produced result has
`passed = true` and the generic message `"Assertion passed."`; the
unrecognized-kind diagnostic exists only inside the evaluators and is
discarded on the passing path. -/
theorem C4_unknown_kind_passes_generic (ops : JsOps) (responseData : JSValue)
    (specs : List AssertionObj) (i : Nat) (spec : AssertionObj)
    (hi : specs[i]? = some spec) (hk : spec.assertion ∉ recognizedKinds) :
    (runAssertions ops responseData specs)[i]? =
      some ⟨spec.assertion, true, "Assertion passed."⟩ := by
  have harr : spec.assertion ≠ "Array Validation" := by
    intro he
    exact hk (by rw [he]; simp [recognizedKinds])
  have hd : dispatchSpec ops responseData spec.assertion spec.inputs =
      .ok (true, "Assertion passed.") := by
    cases responseData with
    | arr items =>
      have hclass : classifyAssertion spec.assertion = (false, true) := by
        simp [classifyAssertion, harr]
      simp only [dispatchSpec, hclass]
      rw [if_neg (by simp), if_pos (by simp)]
      rw [validateOnArrayItems, fanOutFailures_unknown ops spec.assertion spec.inputs hk]
      rfl
    | undefined => simp [dispatchSpec, validateObjectLevel_unknown ops _ _ _ hk, Except.bind]
    | null => simp [dispatchSpec, validateObjectLevel_unknown ops _ _ _ hk, Except.bind]
    | bool b => simp [dispatchSpec, validateObjectLevel_unknown ops _ _ _ hk, Except.bind]
    | num q => simp [dispatchSpec, validateObjectLevel_unknown ops _ _ _ hk, Except.bind]
    | str s => simp [dispatchSpec, validateObjectLevel_unknown ops _ _ _ hk, Except.bind]
    | obj fs => simp [dispatchSpec, validateObjectLevel_unknown ops _ _ _ hk, Except.bind]
    | promise v => simp [dispatchSpec, validateObjectLevel_unknown ops _ _ _ hk, Except.bind]
  rw [runAssertions_eq_map, List.getElem?_map, hi]
  simp [evalSpec, hd]

/-- Witness for C4 (amended) on a collection response. -/
theorem C4_unknown_kind_passes_generic_witness :
    (runAssertions trivOps (.arr [.num 5]) [⟨"Bogus", .null⟩])[0]? =
      some ⟨"Bogus", true, "Assertion passed."⟩ :=
  C4_unknown_kind_passes_generic trivOps (.arr [.num 5]) [⟨"Bogus", .null⟩] 0
    ⟨"Bogus", .null⟩ (by rfl) (by decide)

/-- C3: if evaluating one spec throws, that spec's result is a failed
result whose message carries the exception's message, every spec still
gets exactly one result (the full list is always returned), and every
position — including those after the throwing spec — holds the result
of evaluating its own spec: no exception escapes `runAssertions`. -/
theorem C3_spec_isolation (ops : JsOps) (responseData : JSValue)
    (specs : List AssertionObj) (i : Nat) (spec : AssertionObj) (err : String)
    (hi : specs[i]? = some spec)
    (hthrow : dispatchSpec ops responseData spec.assertion spec.inputs = .error err) :
    (runAssertions ops responseData specs)[i]? =
      some ⟨spec.assertion, false,
        "Error during assertion \"" ++ spec.assertion ++ "\": " ++ err⟩ ∧
    (runAssertions ops responseData specs).length = specs.length ∧
    ∀ (j : Nat) (spec2 : AssertionObj), specs[j]? = some spec2 →
      (runAssertions ops responseData specs)[j]? = some (evalSpec ops responseData spec2) := by
  rw [runAssertions_eq_map]
  refine ⟨?_, by simp, ?_⟩
  · rw [List.getElem?_map, hi]
    simp [evalSpec, hthrow]
  · intro j spec2 hj
    rw [List.getElem?_map, hj]
    rfl

/-- Witness for C3: a "Nullability" spec whose `inputs` is `null` throws
while destructuring, the result captures the error text, and the
following "Required Fields" spec is still evaluated. -/
theorem C3_spec_isolation_witness :
    (runAssertions trivOps (.obj [("id", .num 1)])
        [⟨"Nullability", .null⟩, ⟨"Required Fields", .arr [.str "id"]⟩])[0]? =
      some ⟨"Nullability", false,
        "Error during assertion \"Nullability\": Cannot read properties of null (reading 'nonNullable')"⟩ ∧
    (runAssertions trivOps (.obj [("id", .num 1)])
        [⟨"Nullability", .null⟩, ⟨"Required Fields", .arr [.str "id"]⟩]).length = 2 ∧
    (runAssertions trivOps (.obj [("id", .num 1)])
        [⟨"Nullability", .null⟩, ⟨"Required Fields", .arr [.str "id"]⟩])[1]? =
      some (evalSpec trivOps (.obj [("id", .num 1)]) ⟨"Required Fields", .arr [.str "id"]⟩) := by
  obtain ⟨ha, hb, hc⟩ := C3_spec_isolation trivOps (.obj [("id", .num 1)])
    [⟨"Nullability", .null⟩, ⟨"Required Fields", .arr [.str "id"]⟩] 0 ⟨"Nullability", .null⟩
    "Cannot read properties of null (reading 'nonNullable')" (by rfl) (by decide)
  exact ⟨ha, hb, hc 1 ⟨"Required Fields", .arr [.str "id"]⟩ (by rfl)⟩

/-- Counterexample to C5 as stated: a top-level collection with
duplicate elements under an "Array Validation" spec requesting
`enforceUnique` still passes — top-level uniqueness is not implemented
(the second conjunct shows value-equality dedup would have found a
duplicate). -/
theorem C5_counterexample :
    runAssertions trivOps (.arr [.num 1, .num 1])
        [⟨"Array Validation", .obj [("enforceUnique", .bool true)]⟩] =
      [⟨"Array Validation", true, "Assertion passed."⟩] ∧
    jsSetSize [.num 1, .num 1] ≠ 2 := by
  refine ⟨by decide, by decide⟩

/-- C5 (amended): for a collection response, the array-level
"Array Validation" evaluator checks only the collection's own length
against the `minLength`/`maxLength` bounds; `enforceUnique` (and every
other input and every element value) is ignored — the verdict depends
only on the collection's length, so duplicate elements are never
detected at array level. -/
theorem C5_array_level_length_only :
    (∀ (xs ys : List JSValue) (inputs : JSValue), xs.length = ys.length →
      validateArrayLevel xs "Array Validation" inputs =
        validateArrayLevel ys "Array Validation" inputs) ∧
    (∀ (xs : List JSValue) (fs : List (String × JSValue)), ∃ m,
      validateArrayLevel xs "Array Validation" (.obj fs) =
        .ok ((!natBelow xs.length ((JSValue.obj fs).getField "minLength") &&
              !natAbove xs.length ((JSValue.obj fs).getField "maxLength")), m)) := by
  constructor
  · intro xs ys inputs hlen
    rw [validateArrayLevel, validateArrayLevel, hlen]
  · intro xs fs
    have hred : validateArrayLevel xs "Array Validation" (.obj fs) =
        (if natBelow xs.length ((JSValue.obj fs).getField "minLength") then
          .ok (false, "Array length is below minimum " ++
            jsDisplay ((JSValue.obj fs).getField "minLength") ++
            ". Actual length = " ++ toString xs.length)
        else if natAbove xs.length ((JSValue.obj fs).getField "maxLength") then
          .ok (false, "Array length exceeds maximum " ++
            jsDisplay ((JSValue.obj fs).getField "maxLength") ++
            ". Actual length = " ++ toString xs.length)
        else .ok (true, "Assertion passed.")) := rfl
    rw [hred]
    cases hb : natBelow xs.length ((JSValue.obj fs).getField "minLength") with
    | true =>
      exact ⟨"Array length is below minimum " ++
        jsDisplay ((JSValue.obj fs).getField "minLength") ++
        ". Actual length = " ++ toString xs.length, by simp⟩
    | false =>
      cases ha : natAbove xs.length ((JSValue.obj fs).getField "maxLength") with
      | true =>
        exact ⟨"Array length exceeds maximum " ++
          jsDisplay ((JSValue.obj fs).getField "maxLength") ++
          ". Actual length = " ++ toString xs.length, by simp⟩
      | false => exact ⟨"Assertion passed.", by simp⟩

/-- Witness for C5 (amended): two equal-length collections — one with
duplicates, one without — get the same array-level verdict, and the
verdict on a bounded check is the length-only verdict. -/
theorem C5_array_level_length_only_witness :
    validateArrayLevel [.num 1, .num 1] "Array Validation"
        (.obj [("enforceUnique", .bool true)]) =
      validateArrayLevel [.num 1, .num 2] "Array Validation"
        (.obj [("enforceUnique", .bool true)]) ∧
    ∃ m, validateArrayLevel [.num 1, .num 1] "Array Validation"
        (.obj [("minLength", .num 3)]) =
      .ok ((!natBelow 2 ((JSValue.obj [("minLength", .num 3)]).getField "minLength") &&
            !natAbove 2 ((JSValue.obj [("minLength", .num 3)]).getField "maxLength")), m) :=
  ⟨C5_array_level_length_only.1 [.num 1, .num 1] [.num 1, .num 2]
      (.obj [("enforceUnique", .bool true)]) (by decide),
    C5_array_level_length_only.2 [.num 1, .num 1] [("minLength", .num 3)]⟩

/-- Reduction of the object-level evaluator on a `"Custom"` spec with a
single `path` input: destructuring yields the path and an empty rest
object, and the outcome is determined by the resolved module and the
un-awaited return value of its `validate` export. -/
lemma validateObjectLevel_custom (ops : JsOps) (record : JSValue) (pathStr : String) :
    validateObjectLevel ops record "Custom" (.obj [("path", .str pathStr)]) =
      (match ops.modules pathStr with
       | .importError m => Except.ok (false, "Error running custom assertion script: " ++ m)
       | .loaded none =>
         Except.ok (false, "Custom script does not export a 'validate' function.")
       | .loaded (some validate) =>
         match validate record (.obj []) with
         | .thrown m => Except.ok (false, "Error running custom assertion script: " ++ m)
         | .ret result =>
           if !(truthy result) || typeofJS (result.getField "status") != "boolean" ||
               typeofJS (result.getField "error") != "string" then
             Except.ok (false,
               "Custom script returned invalid structure. Must be \x7b status: boolean, error: string \x7d.")
           else
             if asBool (result.getField "status") then Except.ok (true, "Assertion passed.")
             else
               Except.ok (false,
                 if asStr (result.getField "error") == "" then "Custom assertion script failed."
                 else asStr (result.getField "error"))) := rfl

/-- The object-path dispatch forwards the object-level verdict, copying
the branch message only on failure. -/
lemma dispatchSpec_obj_of_vol (ops : JsOps) (fs : List (String × JSValue)) (a : String)
    (inp : JSValue) (p : Bool) (m : String)
    (h : validateObjectLevel ops (.obj fs) a inp = .ok (p, m)) :
    dispatchSpec ops (.obj fs) a inp =
      .ok (if p then (true, "Assertion passed.") else (false, m)) := by
  simp only [dispatchSpec]
  rw [h]
  rfl

/-- A single-spec run on an object response is the one evaluated result. -/
lemma runAssertions_single_obj (ops : JsOps) (fs : List (String × JSValue))
    (a : String) (inp : JSValue) (p : Bool) (m : String)
    (h : validateObjectLevel ops (.obj fs) a inp = .ok (p, m)) :
    runAssertions ops (.obj fs) [⟨a, inp⟩] =
      [⟨a, p, if p then "Assertion passed." else m⟩] := by
  have hd := dispatchSpec_obj_of_vol ops fs a inp p m h
  rw [runAssertions, runAssertions]
  cases p with
  | true => simp [evalSpec, hd]
  | false => simp [evalSpec, hd]

/-- Counterexample to C6 as stated: a validator returning its
`{status: true, error: s}` object by an awaitable is NOT accepted — the
source reads `result.status` without awaiting, finds `undefined` on the
promise, and fails the shape check, so the produced result is failing,
not passing. -/
theorem C6_counterexample :
    runAssertions promiseOps (.obj []) [⟨"Custom", .obj [("path", .str "m")]⟩] =
      [⟨"Custom", false,
        "Custom script returned invalid structure. Must be \x7b status: boolean, error: string \x7d."⟩] ∧
    (runAssertions promiseOps (.obj []) [⟨"Custom", .obj [("path", .str "m")]⟩]).all
      (fun r => !r.passed) = true := by
  refine ⟨by decide, by decide⟩

/-- C6 (amended): the bridge accepts only a synchronous
`{status, error}` return: a resolved module whose callable `validate`
returns the well-shaped object synchronously yields `passed = status`
(in particular a passing result when `status` is `true`), while a
validator returning the same object wrapped in an awaitable yields a
failed "invalid structure" result, because the return value is used
without awaiting. -/
theorem C6_sync_only_custom_return (ops : JsOps) (record : JSValue) (pathStr : String)
    (f : JSValue → JSValue → CustomCall)
    (hmod : ops.modules pathStr = .loaded (some f)) :
    (∀ b e, f record (.obj []) = .ret (.obj [("status", .bool b), ("error", .str e)]) →
      validateObjectLevel ops record "Custom" (.obj [("path", .str pathStr)]) =
        .ok (b, if b then "Assertion passed."
                else if e == "" then "Custom assertion script failed." else e)) ∧
    (∀ w, f record (.obj []) = .ret (.promise w) →
      validateObjectLevel ops record "Custom" (.obj [("path", .str pathStr)]) =
        .ok (false,
          "Custom script returned invalid structure. Must be \x7b status: boolean, error: string \x7d.")) := by
  constructor
  · intro b e hcall
    rw [validateObjectLevel_custom, hmod]
    simp only [hcall]
    cases b with
    | true => rfl
    | false => rfl
  · intro w hcall
    rw [validateObjectLevel_custom, hmod]
    simp only [hcall]
    rfl

/-- Witness for C6 (amended): the synchronous well-shaped return passes,
the awaitable-wrapped return of the very same object fails the shape
check. -/
theorem C6_sync_only_custom_return_witness :
    validateObjectLevel c6ops (.obj []) "Custom" (.obj [("path", .str "sync")]) =
      .ok (true, "Assertion passed.") ∧
    validateObjectLevel c6ops (.obj []) "Custom" (.obj [("path", .str "pro")]) =
      .ok (false,
        "Custom script returned invalid structure. Must be \x7b status: boolean, error: string \x7d.") := by
  constructor
  · have h := (C6_sync_only_custom_return c6ops (.obj []) "sync"
      (fun _ _ => .ret (.obj [("status", .bool true), ("error", .str "ok")])) (by rfl)).1
      true "ok" (by rfl)
    simpa using h
  · exact (C6_sync_only_custom_return c6ops (.obj []) "pro"
      (fun _ _ => .ret (.promise (.obj [("status", .bool true), ("error", .str "ok")]))) (by rfl)).2
      (.obj [("status", .bool true), ("error", .str "ok")]) (by rfl)

/-- C7: every Custom-bridge contract violation — module import failure,
missing or non-callable `validate` export, a return value lacking the
`{status: bool, error: string}` shape, or a throwing invocation — makes
the runner produce a single failed result with the corresponding
explanatory message (no exception escapes), and a validator returning
`{status: false, error: "bad"}` yields a failed result whose message is
exactly `"bad"`. -/
theorem C7_custom_contract_violations (ops : JsOps) (fs : List (String × JSValue))
    (pathStr : String) :
    (∀ m, ops.modules pathStr = .importError m →
      runAssertions ops (.obj fs) [⟨"Custom", .obj [("path", .str pathStr)]⟩] =
        [⟨"Custom", false, "Error running custom assertion script: " ++ m⟩]) ∧
    (ops.modules pathStr = .loaded none →
      runAssertions ops (.obj fs) [⟨"Custom", .obj [("path", .str pathStr)]⟩] =
        [⟨"Custom", false, "Custom script does not export a 'validate' function."⟩]) ∧
    (∀ f m, ops.modules pathStr = .loaded (some f) →
      f (.obj fs) (.obj []) = .thrown m →
      runAssertions ops (.obj fs) [⟨"Custom", .obj [("path", .str pathStr)]⟩] =
        [⟨"Custom", false, "Error running custom assertion script: " ++ m⟩]) ∧
    (∀ f v, ops.modules pathStr = .loaded (some f) →
      f (.obj fs) (.obj []) = .ret v →
      (!(truthy v) || typeofJS (v.getField "status") != "boolean" ||
        typeofJS (v.getField "error") != "string") = true →
      runAssertions ops (.obj fs) [⟨"Custom", .obj [("path", .str pathStr)]⟩] =
        [⟨"Custom", false,
          "Custom script returned invalid structure. Must be \x7b status: boolean, error: string \x7d."⟩]) ∧
    (∀ f, ops.modules pathStr = .loaded (some f) →
      f (.obj fs) (.obj []) = .ret (.obj [("status", .bool false), ("error", .str "bad")]) →
      runAssertions ops (.obj fs) [⟨"Custom", .obj [("path", .str pathStr)]⟩] =
        [⟨"Custom", false, "bad"⟩]) := by
  refine ⟨?_, ?_, ?_, ?_, ?_⟩
  · intro m hmod
    refine runAssertions_single_obj ops fs "Custom" _ false _ ?_
    rw [validateObjectLevel_custom, hmod]
  · intro hmod
    refine runAssertions_single_obj ops fs "Custom" _ false _ ?_
    rw [validateObjectLevel_custom, hmod]
  · intro f m hmod hcall
    refine runAssertions_single_obj ops fs "Custom" _ false _ ?_
    rw [validateObjectLevel_custom, hmod]
    simp only [hcall]
  · intro f v hmod hcall hshape
    refine runAssertions_single_obj ops fs "Custom" _ false _ ?_
    rw [validateObjectLevel_custom, hmod]
    simp only [hcall]
    rw [if_pos hshape]
  · intro f hmod hcall
    refine runAssertions_single_obj ops fs "Custom" _ false _ ?_
    rw [validateObjectLevel_custom, hmod]
    simp only [hcall]
    rfl

/-- Witness for C7: each of the five contract situations at a concrete
module path, including the `"bad"` message example. -/
theorem C7_custom_contract_violations_witness :
    runAssertions c7ops (.obj []) [⟨"Custom", .obj [("path", .str "e1")]⟩] =
      [⟨"Custom", false, "Error running custom assertion script: not found"⟩] ∧
    runAssertions c7ops (.obj []) [⟨"Custom", .obj [("path", .str "e2")]⟩] =
      [⟨"Custom", false, "Custom script does not export a 'validate' function."⟩] ∧
    runAssertions c7ops (.obj []) [⟨"Custom", .obj [("path", .str "e3")]⟩] =
      [⟨"Custom", false, "Error running custom assertion script: boom"⟩] ∧
    runAssertions c7ops (.obj []) [⟨"Custom", .obj [("path", .str "e4")]⟩] =
      [⟨"Custom", false,
        "Custom script returned invalid structure. Must be \x7b status: boolean, error: string \x7d."⟩] ∧
    runAssertions c7ops (.obj []) [⟨"Custom", .obj [("path", .str "e5")]⟩] =
      [⟨"Custom", false, "bad"⟩] :=
  ⟨(C7_custom_contract_violations c7ops [] "e1").1 "not found" (by rfl),
   (C7_custom_contract_violations c7ops [] "e2").2.1 (by rfl),
   (C7_custom_contract_violations c7ops [] "e3").2.2.1 (fun _ _ => .thrown "boom") "boom"
     (by rfl) (by rfl),
   (C7_custom_contract_violations c7ops [] "e4").2.2.2.1 (fun _ _ => .ret (.num 5)) (.num 5)
     (by rfl) (by rfl) (by decide),
   (C7_custom_contract_violations c7ops [] "e5").2.2.2.2
     (fun _ _ => .ret (.obj [("status", .bool false), ("error", .str "bad")]))
     (by rfl) (by rfl)⟩

/-- Binding of `>>=` over a successful step (definitional). -/
lemma except_bind_ok {ε α β : Type _} (a : α) (f : α → Except ε β) :
    (Except.ok a : Except ε α) >>= f = f a := rfl

/-- The monadic `pure` of `Except` is `Except.ok` (definitional). -/
lemma except_pure_eq {ε α : Type _} (a : α) : (pure a : Except ε α) = .ok a := rfl

/-- The `nonNullable` loop stops at the first field whose value is
strictly `null` and passes otherwise. -/
lemma nullLoop (fs : List (String × JSValue)) : ∀ fields : List String,
    firstFailE (nonNullCheckF fs) (fields.map .str) =
      .ok (match fields.find? (fun f => jsStrictEq ((JSValue.obj fs).getField f) .null) with
           | some f => some ("Field \"" ++ f ++ "\" should not be null.")
           | none => none)
  | [] => rfl
  | f :: rest => by
    rw [List.map_cons, firstFailE]
    have hF : nonNullCheckF fs (.str f) =
        .ok (if jsStrictEq ((JSValue.obj fs).getField f) .null then
          some ("Field \"" ++ f ++ "\" should not be null.") else none) := rfl
    rw [hF, except_bind_ok]
    cases hnull : jsStrictEq ((JSValue.obj fs).getField f) .null with
    | true => simp [List.find?, hnull, except_pure_eq]
    | false => simp [List.find?, hnull, nullLoop fs rest]

/-- A field that is not an own property of an object-shaped record reads
as `undefined`, which is not strictly `null`. -/
lemma absent_not_null (fs : List (String × JSValue)) (f : String)
    (hown : hasOwnProp (.obj fs) f = false) :
    jsStrictEq ((JSValue.obj fs).getField f) .null = false := by
  cases hfind : fs.find? (fun p => p.1 == f) with
  | none =>
    have : (JSValue.obj fs).getField f = .undefined := by
      simp [JSValue.getField, hfind]
    rw [this]
    rfl
  | some p =>
    exfalso
    have hpred := List.find?_some hfind
    have hmem := List.mem_of_find?_eq_some hfind
    have hkey : p.1 = f := by simpa using hpred
    have : (fs.map Prod.fst).contains f = true := by
      simp only [List.contains_eq_any_beq, List.any_eq_true]
      exact ⟨p.1, List.mem_map_of_mem Prod.fst hmem, by simp [hkey]⟩
    rw [hasOwnProp] at hown
    rw [this] at hown
    exact Bool.noConfusion hown

/-- C9: on an object-shaped record, a Nullability spec's `nonNullable`
check fails exactly when some listed field's value is strictly `null`;
a field absent from the record (not an own property, reading as
`undefined`) passes the non-null check — absence and `null` are treated
differently. -/
theorem C9_nullability_absent_vs_null (ops : JsOps) (fs : List (String × JSValue))
    (fields : List String) :
    (∃ m, validateObjectLevel ops (.obj fs) "Nullability"
        (.obj [("nonNullable", .arr (fields.map .str))]) =
      .ok (fields.all (fun f => !jsStrictEq ((JSValue.obj fs).getField f) .null), m)) ∧
    (∀ f, hasOwnProp (.obj fs) f = false →
      jsStrictEq ((JSValue.obj fs).getField f) .null = false) := by
  refine ⟨?_, fun f hown => absent_not_null fs f hown⟩
  have hred : validateObjectLevel ops (.obj fs) "Nullability"
      (.obj [("nonNullable", .arr (fields.map .str))]) =
      (do
        let r1 ← firstFailE (nonNullCheckF fs) (fields.map .str)
        match r1 with
        | some m => Except.ok (false, m)
        | none => Except.ok (true, "Assertion passed.")) := rfl
  rw [hred, nullLoop fs fields]
  cases hfind : fields.find? (fun f => jsStrictEq ((JSValue.obj fs).getField f) .null) with
  | some f =>
    have hall : fields.all (fun f => !jsStrictEq ((JSValue.obj fs).getField f) .null) = false := by
      have hmem := List.mem_of_find?_eq_some hfind
      have hpred := List.find?_some hfind
      rw [Bool.eq_false_iff]
      intro hc
      rw [List.all_eq_true] at hc
      have hx := hc f hmem
      simp only [Bool.not_eq_true'] at hx
      rw [hx] at hpred
      exact Bool.noConfusion hpred
    rw [hall]
    exact ⟨"Field \"" ++ f ++ "\" should not be null.", by rw [except_bind_ok]⟩
  | none =>
    have hall : fields.all (fun f => !jsStrictEq ((JSValue.obj fs).getField f) .null) = true := by
      rw [List.all_eq_true]
      intro x hx
      have := List.find?_eq_none.mp hfind x hx
      simpa using this
    rw [hall]
    exact ⟨"Assertion passed.", by rw [except_bind_ok]⟩

/-- Witness for C9: field `b` is absent from `{a: null}` and passes the
non-null check; field `a` is strictly `null` and fails it. -/
theorem C9_nullability_absent_vs_null_witness :
    (∃ m, validateObjectLevel trivOps (.obj [("a", .null)]) "Nullability"
        (.obj [("nonNullable", .arr ([ "b" ].map .str))]) =
      .ok (([ "b" ].all (fun f =>
        !jsStrictEq ((JSValue.obj [("a", .null)]).getField f) .null)), m)) ∧
    (∃ m, validateObjectLevel trivOps (.obj [("a", .null)]) "Nullability"
        (.obj [("nonNullable", .arr ([ "a" ].map .str))]) =
      .ok (([ "a" ].all (fun f =>
        !jsStrictEq ((JSValue.obj [("a", .null)]).getField f) .null)), m)) ∧
    ([ "b" ].all (fun f => !jsStrictEq ((JSValue.obj [("a", .null)]).getField f) .null)) = true ∧
    ([ "a" ].all (fun f => !jsStrictEq ((JSValue.obj [("a", .null)]).getField f) .null)) = false :=
  ⟨(C9_nullability_absent_vs_null trivOps [("a", .null)] ["b"]).1,
   (C9_nullability_absent_vs_null trivOps [("a", .null)] ["a"]).1,
   by decide, by decide⟩

/-- Binding of `>>=` over a failed step (definitional). -/
lemma except_bind_error {ε α β : Type _} (e : ε) (f : α → Except ε β) :
    (Except.error e : Except ε α) >>= f = .error e := rfl

/-- Characterization of a successful fan-out pass starting at index `k`:
the collected pairs are exactly the failing positions (shifted by `k`)
with their formatted sub-messages, and the collected indices are
strictly increasing. -/
lemma fanOutFailures_ok (ops : JsOps) (a : String) (inp : JSValue) :
    ∀ (l : List JSValue) (k : Nat) (fails : List (Nat × String)),
    fanOutFailures ops a inp l k = .ok fails →
    (∀ p : Nat × String, p ∈ fails ↔ ∃ i item lm,
        l[i]? = some item ∧ p.1 = k + i ∧
        validateObjectLevel ops (wrapItem item) a inp = .ok (false, lm) ∧
        p.2 = "Index " ++ toString (k + i) ++ ": " ++ lm) ∧
    List.Sorted (· < ·) (fails.map Prod.fst) := by
  intro l
  induction l with
  | nil =>
    intro k fails h
    rw [fanOutFailures] at h
    injection h with h
    subst h
    refine ⟨fun p => ?_, by simp⟩
    simp
  | cons item rest ih =>
    intro k fails h
    rw [fanOutFailures] at h
    cases h1 : validateObjectLevel ops (wrapItem item) a inp with
    | error e =>
      rw [h1, except_bind_error] at h
      exact Except.noConfusion h
    | ok pr =>
      obtain ⟨lp, lm⟩ := pr
      rw [h1, except_bind_ok] at h
      cases h2 : fanOutFailures ops a inp rest (k + 1) with
      | error e =>
        rw [h2, except_bind_error] at h
        exact Except.noConfusion h
      | ok tail =>
        rw [h2, except_bind_ok, except_pure_eq] at h
        injection h with h
        obtain ⟨ihmem, ihsort⟩ := ih (k + 1) tail h2
        cases lp with
        | true =>
          simp only [if_true] at h
          subst h
          refine ⟨fun p => ?_, ihsort⟩
          rw [ihmem p]
          constructor
          · rintro ⟨i, item', lm', hget, hp1, hval, hp2⟩
            have heq : k + 1 + i = k + (i + 1) := by omega
            rw [heq] at hp1 hp2
            exact ⟨i + 1, item', lm', by simpa using hget, hp1, hval, hp2⟩
          · rintro ⟨i, item', lm', hget, hp1, hval, hp2⟩
            cases i with
            | zero =>
              exfalso
              simp only [List.getElem?_cons_zero, Option.some.injEq] at hget
              subst hget
              rw [h1] at hval
              injection hval with hval
              exact Bool.noConfusion (congrArg Prod.fst hval)
            | succ i' =>
              have heq : k + (i' + 1) = k + 1 + i' := by omega
              rw [heq] at hp1 hp2
              exact ⟨i', item', lm', by simpa using hget, hp1, hval, hp2⟩
        | false =>
          simp only [Bool.false_eq_true, if_false] at h
          subst h
          constructor
          · intro p
            rw [List.mem_cons, ihmem p]
            constructor
            · rintro (hp | ⟨i, item', lm', hget, hp1, hval, hp2⟩)
              · subst hp
                refine ⟨0, item, lm, by simp, by simp, ?_, by simp⟩
                rw [h1]
              · have heq : k + 1 + i = k + (i + 1) := by omega
                rw [heq] at hp1 hp2
                exact ⟨i + 1, item', lm', by simpa using hget, hp1, hval, hp2⟩
            · rintro ⟨i, item', lm', hget, hp1, hval, hp2⟩
              cases i with
              | zero =>
                left
                simp only [List.getElem?_cons_zero, Option.some.injEq] at hget
                subst hget
                rw [h1] at hval
                injection hval with hval
                have hlm : lm = lm' := congrArg Prod.snd hval
                have hp1' : p.1 = k := by simpa using hp1
                have hp2' : p.2 = "Index " ++ toString k ++ ": " ++ lm := by
                  rw [hp2, hlm]
                  simp
                exact Prod.ext hp1' hp2'
              | succ i' =>
                right
                have heq : k + (i' + 1) = k + 1 + i' := by omega
                rw [heq] at hp1 hp2
                exact ⟨i', item', lm', by simpa using hget, hp1, hval, hp2⟩
          · rw [List.map_cons, List.sorted_cons]
            refine ⟨?_, ihsort⟩
            intro b hb
            rw [List.mem_map] at hb
            obtain ⟨p, hp, hpb⟩ := hb
            obtain ⟨i, _, _, _, hp1, _, _⟩ := (ihmem p).mp hp
            omega

/-- C1: on a collection response, an item-level assertion yields exactly
one aggregated result: it passes iff zero elements failed; on failure
the message lists every failing 0-based index, ascending without
duplicates, each with its per-index sub-message, joined with the fixed
separators; and the concrete array `[{a:1},{a:"x"},{a:3}]` under the
item-level numeric check on field `a` yields a single failing result
listing index 1 only. -/
theorem C1_item_fanout_aggregation :
    (∀ (ops : JsOps) (data : List JSValue) (a : String) (inp : JSValue)
        (fails : List (Nat × String)),
      fanOutFailures ops a inp data 0 = .ok fails →
      validateOnArrayItems ops data a inp =
        .ok (fails.isEmpty,
          if fails.isEmpty then "Assertion passed."
          else "Item(s) at index [" ++
            String.intercalate ", " (fails.map (fun p => toString p.1)) ++
            "] failed. Reasons: " ++ String.intercalate " | " (fails.map Prod.snd)) ∧
      List.Sorted (· < ·) (fails.map Prod.fst) ∧
      (∀ p : Nat × String, p ∈ fails ↔ ∃ item lm, data[p.1]? = some item ∧
        validateObjectLevel ops (wrapItem item) a inp = .ok (false, lm) ∧
        p.2 = "Index " ++ toString p.1 ++ ": " ++ lm)) ∧
    runAssertions trivOps
        (.arr [.obj [("a", .num 1)], .obj [("a", .str "x")], .obj [("a", .num 3)]])
        [⟨"Number Field Validation", .arr [.str "a"]⟩] =
      [⟨"Number Field Validation", false,
        "Item(s) at index [1] failed. Reasons: Index 1: Field \"a\" is not a number."⟩] := by
  constructor
  · intro ops data a inp fails h
    obtain ⟨hmem, hsort⟩ := fanOutFailures_ok ops a inp data 0 fails h
    refine ⟨?_, hsort, ?_⟩
    · simp only [validateOnArrayItems]
      rw [h, except_bind_ok]
      cases hfe : fails.isEmpty with
      | true => simp [hfe, except_pure_eq]
      | false => simp [hfe, except_pure_eq]
    · intro p
      rw [hmem p]
      constructor
      · rintro ⟨i, item, lm, hget, hp1, hval, hp2⟩
        have hi : p.1 = i := by omega
        subst hi
        exact ⟨item, lm, hget, hval, by simpa using hp2⟩
      · rintro ⟨item, lm, hget, hval, hp2⟩
        exact ⟨p.1, item, lm, hget, by omega, hval, by simpa using hp2⟩
  · decide

/-- Witness for C1: the fan-out over the concrete array collects
exactly the pair for index 1, and the aggregated result is the single
failing result with the ascending index list. -/
theorem C1_item_fanout_aggregation_witness :
    validateOnArrayItems trivOps
        [.obj [("a", .num 1)], .obj [("a", .str "x")], .obj [("a", .num 3)]]
        "Number Field Validation" (.arr [.str "a"]) =
      .ok (false,
        "Item(s) at index [1] failed. Reasons: Index 1: Field \"a\" is not a number.") ∧
    List.Sorted (· < ·) [1] := by
  have h := C1_item_fanout_aggregation.1 trivOps
    [.obj [("a", .num 1)], .obj [("a", .str "x")], .obj [("a", .num 3)]]
    "Number Field Validation" (.arr [.str "a"])
    [(1, "Index 1: Field \"a\" is not a number.")] (by decide)
  exact ⟨by simpa using h.1, h.2.1⟩

end IBGRoboot
